import Mathlib

/-!
Shallow embedding of `ycmd/completers/rust/rust_completer.py` (the racer
Rust completer) and proofs about its protocol codec and completion session.

Modelling conventions:
* Python strings are Lean `String`s; `utils.ToUtf8IfNeeded` is the identity
  on this model (it only changes the byte representation, not the text).
* Python exceptions are modelled with `Except PyErr` inside the helpers and
  with the `Outcome` type at the session level.
* The helper process is modelled by `ServerState`: its liveness flag
  (`poll() == None`) and the list of lines still available on its stdout
  pipe before end-of-stream.  After those lines are exhausted, Python's
  `readline()` returns `""` forever; since `"" != "END"`, the read loop of
  `_ReadResponse` never exits, which the model records as `none` / `.hangs`.
* File-system effects of `ComputeCandidatesInner` (the `NamedTemporaryFile`
  scratch file) and pipe writes are recorded in an explicit trace.
-/

/-- Characters removed by Python `str.strip()` (ASCII whitespace; the
    further Unicode space characters Python also strips never occur in the
    protocol lines modelled here). -/
def isPySpace (c : Char) : Bool :=
  c = ' ' || c = '\t' || c = '\n' || c = '\r' || c = '\x0b' || c = '\x0c'

/-- `str.strip()` on the character list: drop spaces from both ends. -/
def pyStripList (cs : List Char) : List Char :=
  ((cs.dropWhile isPySpace).reverse.dropWhile isPySpace).reverse

/-- Python `line.strip()`. -/
def pyStrip (s : String) : String :=
  ⟨pyStripList s.data⟩

/-- Value of a nonempty all-digit string, `none` otherwise. -/
def digitsValAux : List Char → Nat → Option Nat
  | [], acc => some acc
  | c :: rest, acc =>
      if c.isDigit then digitsValAux rest (acc * 10 + (c.toNat - 48)) else none

/-- Digits of a decimal numeral; `none` for the empty list or a non-digit. -/
def digitsVal : List Char → Option Nat
  | [] => none
  | cs => digitsValAux cs 0

/-- Sign handling of Python `int()` after stripping. -/
def pyIntCore : List Char → Option Int
  | '+' :: rest => (digitsVal rest).map Int.ofNat
  | '-' :: rest => (digitsVal rest).map (fun n => -(n : Int))
  | cs => (digitsVal cs).map Int.ofNat

/-- Model of Python `int(s)`: optional surrounding whitespace, optional
    sign, then a nonempty run of decimal digits; `none` models the
    `ValueError` raised on anything else.  (Digit-group underscores and
    non-ASCII digits, which CPython also accepts, never occur in the
    protocol traffic modelled here.) -/
def pyInt? (s : String) : Option Int :=
  pyIntCore (pyStripList s.data)

/-- Python `str.split(',', n)`: split on commas, at most `n` times; once the
    budget is exhausted the whole remainder (commas included) is the last
    field.  `acc` holds the current field reversed. -/
def splitCommaBounded : Nat → List Char → List Char → List (List Char)
  | _, [], acc => [acc.reverse]
  | 0, rest, acc => [acc.reverse ++ rest]
  | Nat.succ k, c :: rest, acc =>
      if c = ',' then acc.reverse :: splitCommaBounded k rest []
      else splitCommaBounded (Nat.succ k) rest (c :: acc)

/-- The exceptions the completer can raise, plus the two `RuntimeError`s it
    constructs itself. -/
inductive PyErr where
  /-- `ValueError` from `int()` on a non-numeric field. -/
  | valueError
  /-- `IndexError` from `parts[i]` on a short split. -/
  | indexError
  /-- `RuntimeError('racer server not running')`. -/
  | serverNotRunning
  /-- `RuntimeError('Could not find definition')`. -/
  | noDefinition
deriving DecidableEq, Repr

/-- The dict built by `_ParseCompleteResponse` for a match line. -/
structure MatchRecord where
  name : String
  line_num : Int
  column_num : Int
  filepath : String
  kind : String
  snippet : String
deriving DecidableEq, Repr

/-- Decidable equality for `Except` results, so concrete runs of the codec
    can be checked by `decide`. -/
instance instDecEqExcept {ε α : Type} [DecidableEq ε] [DecidableEq α] :
    DecidableEq (Except ε α)
  | Except.error x, Except.error y =>
      if h : x = y then Decidable.isTrue (congrArg Except.error h)
      else Decidable.isFalse (fun e => h (Except.error.inj e))
  | Except.error _, Except.ok _ => Decidable.isFalse (fun e => Except.noConfusion e)
  | Except.ok _, Except.error _ => Decidable.isFalse (fun e => Except.noConfusion e)
  | Except.ok x, Except.ok y =>
      if h : x = y then Decidable.isTrue (congrArg Except.ok h)
      else Decidable.isFalse (fun e => h (Except.ok.inj e))

/-- `parts[i]` with Python semantics: out of range raises `IndexError`. -/
def pyIndex (parts : List String) (i : Nat) : Except PyErr String :=
  match parts.get? i with
  | some s => Except.ok s
  | none => Except.error PyErr.indexError

/-- `int(s)` with Python semantics: failure raises `ValueError`. -/
def pyIntE (s : String) : Except PyErr Int :=
  match pyInt? s with
  | some n => Except.ok n
  | none => Except.error PyErr.valueError

/-- `line.startswith('MATCH ')` fused with `line[len(prefix):]`: the
    remainder after the fixed token, or `none` when the line does not start
    with it. -/
def dropPrefixMATCH : List Char → Option (List Char)
  | 'M' :: 'A' :: 'T' :: 'C' :: 'H' :: ' ' :: rest => some rest
  | _ => none

/-- The dict literal of `_ParseCompleteResponse`, evaluated in Python
    order: `parts[0]`, `int(parts[1])`, `int(parts[2]) + 1`, `parts[3]`,
    `parts[4]`, `parts[5]`; the first `IndexError` / `ValueError`
    propagates. -/
def buildMatchRecord (parts : List String) : Except PyErr (Option MatchRecord) :=
  match pyIndex parts 0 with
  | Except.error e => Except.error e
  | Except.ok p0 =>
  match pyIndex parts 1 with
  | Except.error e => Except.error e
  | Except.ok p1 =>
  match pyIntE p1 with
  | Except.error e => Except.error e
  | Except.ok lnum =>
  match pyIndex parts 2 with
  | Except.error e => Except.error e
  | Except.ok p2 =>
  match pyIntE p2 with
  | Except.error e => Except.error e
  | Except.ok cnum =>
  match pyIndex parts 3 with
  | Except.error e => Except.error e
  | Except.ok p3 =>
  match pyIndex parts 4 with
  | Except.error e => Except.error e
  | Except.ok p4 =>
  match pyIndex parts 5 with
  | Except.error e => Except.error e
  | Except.ok p5 => Except.ok (some ⟨p0, lnum, cnum + 1, p3, p4, p5⟩)

/-- `_ParseCompleteResponse(line)`: on a `MATCH `-prefixed line, split the
    remainder on at most five commas and build the record, raising
    `IndexError` on a missing field and `ValueError` on a non-numeric
    line/column; any other line yields `None`.  The column is stored as
    `int(parts[2]) + 1`, exactly as in the source. -/
def _ParseCompleteResponse (line : String) : Except PyErr (Option MatchRecord) :=
  match dropPrefixMATCH line.data with
  | none => Except.ok none
  | some rest =>
      buildMatchRecord ((splitCommaBounded 5 rest []).map (fun cs => (⟨cs⟩ : String)))

/-- `_ReadResponse`, reading the stdout lines still available before
    end-of-stream: strip each line, stop at `"END"`, collect the rest.
    Returns `none` when the available lines are exhausted without a
    terminator: from then on `readline()` returns `""` forever and
    `"" != "END"`, so the Python loop never exits (divergence). -/
def _ReadResponse : List String → Option (List String)
  | [] => none
  | l :: rest =>
      let output := pyStrip l
      if output = "END" then some []
      else
        match _ReadResponse rest with
        | none => none
        | some acc => some (output :: acc)

/-- The fields of `request_data` this completer reads. -/
structure RequestContext where
  filepath : String
  contents : String
  line_num : Int
  start_column : Int
  column_num : Int
deriving DecidableEq, Repr

/-- The racer process as the session sees it: the liveness probe
    (`poll() == None`) and the lines still available on its stdout pipe
    before end-of-stream. -/
structure ServerState where
  alive : Bool
  stdoutLines : List String
deriving DecidableEq, Repr

/-- Outcome of a session operation: a returned value, a raised exception,
    or divergence of the read loop. -/
inductive Outcome (α : Type) where
  | ok : α → Outcome α
  | raised : PyErr → Outcome α
  | hangs : Outcome α
deriving DecidableEq, Repr

/-- `responses.BuildCompletionData` as used here: the four keyword fields
    passed by `_ConvertCompletionData`. -/
structure CompletionData where
  insertion_text : String
  menu_text : String
  kind : String
  extra_menu_info : String
deriving DecidableEq, Repr

/-- `responses.BuildGoToResponse` as used here. -/
structure GoToResponse where
  line_num : Int
  column_num : Int
  filepath : String
deriving DecidableEq, Repr

/-- `_ConvertCompletionData`: name doubles as insertion and menu text,
    kind is passed through, the snippet becomes the extra menu info. -/
def _ConvertCompletionData (d : MatchRecord) : CompletionData :=
  ⟨d.name, d.name, d.kind, d.snippet⟩

/-- `_ConvertGoToData`: line, column and path are taken from the record
    unchanged. -/
def _ConvertGoToData (d : MatchRecord) : GoToResponse :=
  ⟨d.line_num, d.column_num, d.filepath⟩

/-- `' '.join(strings)`. -/
def joinSpace : List String → String
  | [] => ""
  | [s] => s
  | s :: rest => s ++ " " ++ joinSpace rest

/-- `_SendRequest(command, arguments)`: raise the liveness error when the
    server is not running, otherwise the single string written to the
    helper's stdin (`' '.join([command] + map(str, arguments))` plus the
    newline). -/
def _SendRequest (st : ServerState) (command : String) (args : List String) :
    Except PyErr String :=
  if st.alive then Except.ok (joinSpace (command :: args) ++ "\n")
  else Except.error PyErr.serverNotRunning

/-- The parse-and-convert loop of `ComputeCandidatesInner`: parse each
    response line in order, skip `None`s, convert matches; the first
    exception aborts the loop. -/
def parseLoopComplete : List String → Except PyErr (List CompletionData)
  | [] => Except.ok []
  | l :: rest =>
      match _ParseCompleteResponse l with
      | Except.error e => Except.error e
      | Except.ok p =>
          match parseLoopComplete rest with
          | Except.error e => Except.error e
          | Except.ok ms =>
              match p with
              | none => Except.ok ms
              | some r => Except.ok (_ConvertCompletionData r :: ms)

/-- The search loop of `_GoToDefinition`: the first line that parses to a
    record wins; lines after it are never examined. -/
def findFirstMatch : List String → Except PyErr (Option MatchRecord)
  | [] => Except.ok none
  | l :: rest =>
      match _ParseCompleteResponse l with
      | Except.error e => Except.error e
      | Except.ok (some r) => Except.ok (some r)
      | Except.ok none => findFirstMatch rest

/-- Observable effects of one `ComputeCandidatesInner` call: its outcome,
    whether the scratch `NamedTemporaryFile` was created, whether it still
    exists on disk when the call is over, and the lines written to the
    helper's stdin. -/
structure CompleteTrace where
  result : Outcome (Option (List CompletionData))
  scratchCreated : Bool
  scratchOnDisk : Bool
  stdinWritten : List String
deriving DecidableEq, Repr

/-- `ComputeCandidatesInner(request_data)`, with the scratch path chosen by
    `NamedTemporaryFile` passed in as `scratchPath`.  Faithful control
    flow: the falsy-filepath early return comes first; the scratch file is
    created and written BEFORE `_SendRequest` runs its liveness check; the
    `os.unlink` sits between `_ReadResponse` and the parse loop with no
    `try/finally`, so a raise in `_SendRequest` (and divergence in
    `_ReadResponse`) leaves the file on disk, while a parse exception
    happens after the unlink. -/
def ComputeCandidatesInner (ctx : RequestContext) (st : ServerState)
    (scratchPath : String) : CompleteTrace :=
  if ctx.filepath = "" then ⟨Outcome.ok none, false, false, []⟩
  else
    match _SendRequest st ("complete")
        [toString ctx.line_num, toString ctx.start_column,
         ctx.filepath, scratchPath] with
    | Except.error e => ⟨Outcome.raised e, true, true, []⟩
    | Except.ok line =>
        match _ReadResponse st.stdoutLines with
        | none => ⟨Outcome.hangs, true, true, [line]⟩
        | some response =>
            match parseLoopComplete response with
            | Except.error e => ⟨Outcome.raised e, true, false, [line]⟩
            | Except.ok ms => ⟨Outcome.ok (some ms), true, false, [line]⟩

/-- Observable effects of one `_GoToDefinition` call. -/
structure GoToTrace where
  result : Outcome GoToResponse
  stdinWritten : List String
deriving DecidableEq, Repr

/-- `_GoToDefinition(request_data)`: send `find-definition`, read the
    batch, return the converted first match, or raise the definition-not-
    found error when no line matched. -/
def _GoToDefinition (ctx : RequestContext) (st : ServerState) : GoToTrace :=
  match _SendRequest st ("find-definition")
      [toString ctx.line_num, toString ctx.column_num, ctx.filepath] with
  | Except.error e => ⟨Outcome.raised e, []⟩
  | Except.ok line =>
      match _ReadResponse st.stdoutLines with
      | none => ⟨Outcome.hangs, [line]⟩
      | some response =>
          match findFirstMatch response with
          | Except.error e => ⟨Outcome.raised e, [line]⟩
          | Except.ok none => ⟨Outcome.raised PyErr.noDefinition, [line]⟩
          | Except.ok (some r) => ⟨Outcome.ok (_ConvertGoToData r), [line]⟩

/-! ### Helper lemmas about the bounded comma split -/

/-- With the split budget exhausted, the whole remainder is one field. -/
theorem splitCommaBounded_zero (s acc : List Char) :
    splitCommaBounded 0 s acc = [acc.reverse ++ s] := by
  cases s with
  | nil => simp [splitCommaBounded]
  | cons c rest => simp [splitCommaBounded]

/-- A comma-free suffix is consumed into a single final field. -/
theorem splitCommaBounded_no_comma (k : Nat) (s : List Char) :
    ∀ acc : List Char, ',' ∉ s →
      splitCommaBounded (k + 1) s acc = [acc.reverse ++ s] := by
  induction s with
  | nil => intro acc _; simp [splitCommaBounded]
  | cons c rest ih =>
      intro acc h
      have hc : ¬ c = ',' := fun e => h (by simp [e])
      have hr : ',' ∉ rest := fun m => h (by simp [m])
      simp only [splitCommaBounded, if_neg hc, ih (c :: acc) hr,
        List.reverse_cons, List.append_assoc, List.singleton_append,
        List.nil_append]

/-- Splitting past a comma-free field: the field is emitted and the budget
    decreases by one. -/
theorem splitCommaBounded_step (k : Nat) (s : List Char) :
    ∀ (t acc : List Char), ',' ∉ s →
      splitCommaBounded (k + 1) (s ++ ',' :: t) acc =
        (acc.reverse ++ s) :: splitCommaBounded k t [] := by
  induction s with
  | nil => intro t acc _; simp [splitCommaBounded]
  | cons c rest ih =>
      intro t acc h
      have hc : ¬ c = ',' := fun e => h (by simp [e])
      have hr : ',' ∉ rest := fun m => h (by simp [m])
      simp only [List.cons_append, splitCommaBounded, if_neg hc,
        Nat.succ_eq_add_one, List.append_eq, ih t (c :: acc) hr,
        List.reverse_cons, List.append_assoc, List.singleton_append,
        List.nil_append]

/-- Decoding a well-formed encoded match line whose first five fields are
    comma-free and whose line/column fields parse as integers: every field
    round-trips, except that the stored column is the written one plus one
    (the shift `_ParseCompleteResponse` applies at parse time). -/
theorem decode_encoded_match_line
    (name ls cs path kind snippet : String) (l c : Int)
    (hn : ',' ∉ name.data) (hl : ',' ∉ ls.data) (hc : ',' ∉ cs.data)
    (hp : ',' ∉ path.data) (hk : ',' ∉ kind.data)
    (il : pyInt? ls = some l) (ic : pyInt? cs = some c) :
    _ParseCompleteResponse
        (("MATCH ") ++ name ++ (",") ++ ls ++ (",") ++ cs ++ (",") ++
          path ++ (",") ++ kind ++ (",") ++ snippet) =
      Except.ok (some ⟨name, l, c + 1, path, kind, snippet⟩) := by
  have hdata : (("MATCH ") ++ name ++ (",") ++ ls ++ (",") ++ cs ++ (",") ++
      path ++ (",") ++ kind ++ (",") ++ snippet).data =
      'M' :: 'A' :: 'T' :: 'C' :: 'H' :: ' ' ::
        (name.data ++ ',' :: (ls.data ++ ',' :: (cs.data ++ ',' ::
          (path.data ++ ',' :: (kind.data ++ ',' :: snippet.data))))) := by
    simp [String.data_append]
  have hsplit :
      splitCommaBounded 5
        (name.data ++ ',' :: (ls.data ++ ',' :: (cs.data ++ ',' ::
          (path.data ++ ',' :: (kind.data ++ ',' :: snippet.data))))) [] =
      [name.data, ls.data, cs.data, path.data, kind.data, snippet.data] := by
    rw [splitCommaBounded_step 4 name.data _ [] hn,
      splitCommaBounded_step 3 ls.data _ [] hl,
      splitCommaBounded_step 2 cs.data _ [] hc,
      splitCommaBounded_step 1 path.data _ [] hp,
      splitCommaBounded_step 0 kind.data _ [] hk,
      splitCommaBounded_zero snippet.data []]
    simp
  rw [_ParseCompleteResponse, hdata]
  simp only [dropPrefixMATCH, hsplit, List.map_cons, List.map_nil]
  simp only [buildMatchRecord, pyIndex, pyIntE, List.get?]
  simp [il, ic]

/-! ### Helper lemmas about stripping and the read loop -/

/-- `dropWhile` jumps over an all-space prefix. -/
theorem dropWhile_isPySpace_append (ws x : List Char)
    (h : ∀ c ∈ ws, isPySpace c = true) :
    (ws ++ x).dropWhile isPySpace = x.dropWhile isPySpace := by
  induction ws with
  | nil => rfl
  | cons c rest ih =>
      have hc : isPySpace c = true := h c (by simp)
      have hr : ∀ c ∈ rest, isPySpace c = true := fun d m => h d (by simp [m])
      simp [List.dropWhile_cons, hc, ih hr]

/-- Surrounding whitespace does not change the result of `strip()`. -/
theorem pyStripList_pad (ws₁ ws₂ x : List Char)
    (h₁ : ∀ c ∈ ws₁, isPySpace c = true) (h₂ : ∀ c ∈ ws₂, isPySpace c = true) :
    pyStripList (ws₁ ++ x ++ ws₂) = pyStripList x := by
  unfold pyStripList
  rw [List.append_assoc, dropWhile_isPySpace_append ws₁ (x ++ ws₂) h₁,
    List.dropWhile_append]
  by_cases he : (x.dropWhile isPySpace).isEmpty
  · have hw : ws₂.dropWhile isPySpace = [] := List.dropWhile_eq_nil_iff.mpr h₂
    have hx : x.dropWhile isPySpace = [] := by
      cases hxd : x.dropWhile isPySpace with
      | nil => rfl
      | cons a l => rw [hxd] at he; simp [List.isEmpty] at he
    simp [he, hw, hx]
  · have h₂r : ∀ c ∈ ws₂.reverse, isPySpace c = true := by
      intro c m; exact h₂ c (List.mem_reverse.mp m)
    simp only [he, if_false, Bool.false_eq_true, List.reverse_append,
      dropWhile_isPySpace_append ws₂.reverse _ h₂r]

/-- Surrounding whitespace does not change `line.strip()`. -/
theorem pyStrip_pad (ws₁ ws₂ core : String)
    (h₁ : ∀ c ∈ ws₁.data, isPySpace c = true)
    (h₂ : ∀ c ∈ ws₂.data, isPySpace c = true) :
    pyStrip (ws₁ ++ core ++ ws₂) = pyStrip core := by
  unfold pyStrip
  rw [String.data_append, String.data_append,
    pyStripList_pad ws₁.data ws₂.data core.data h₁ h₂]

/-- The read loop consumes stripped non-terminator lines and stops at the
    first line stripping to `"END"`; lines after it are never read. -/
theorem readResponse_until_end (lines : List String) :
    ∀ (l : String) (post : List String),
      (∀ x ∈ lines, pyStrip x ≠ ("END")) → pyStrip l = ("END") →
      _ReadResponse (lines ++ l :: post) = some (lines.map pyStrip) := by
  induction lines with
  | nil => intro l post _ hl; simp [_ReadResponse, hl]
  | cons a rest ih =>
      intro l post h hl
      have ha : pyStrip a ≠ ("END") := h a (by simp)
      have hr : ∀ x ∈ rest, pyStrip x ≠ ("END") := fun x m => h x (by simp [m])
      simp only [List.cons_append, _ReadResponse, if_neg ha,
        List.append_eq, ih l post hr hl, List.map_cons]

/-- With no terminator among the available lines the loop reaches
    end-of-stream and diverges. -/
theorem readResponse_no_end (lines : List String)
    (h : ∀ x ∈ lines, pyStrip x ≠ ("END")) :
    _ReadResponse lines = none := by
  induction lines with
  | nil => rfl
  | cons a rest ih =>
      have ha : pyStrip a ≠ ("END") := h a (by simp)
      have hr : ∀ x ∈ rest, pyStrip x ≠ ("END") := fun x m => h x (by simp [m])
      simp [_ReadResponse, if_neg ha, ih hr]

/-- A batch in which every line decodes to `None` produces no candidates
    and raises nothing. -/
theorem parseLoopComplete_all_none (lines : List String)
    (h : ∀ l ∈ lines, _ParseCompleteResponse l = Except.ok none) :
    parseLoopComplete lines = Except.ok [] := by
  induction lines with
  | nil => rfl
  | cons a rest ih =>
      have ha := h a (by simp)
      have hr : ∀ l ∈ rest, _ParseCompleteResponse l = Except.ok none :=
        fun l m => h l (by simp [m])
      simp [parseLoopComplete, ha, ih hr]

/-- A batch in which every line decodes to `None` yields no first match. -/
theorem findFirstMatch_all_none (lines : List String)
    (h : ∀ l ∈ lines, _ParseCompleteResponse l = Except.ok none) :
    findFirstMatch lines = Except.ok none := by
  induction lines with
  | nil => rfl
  | cons a rest ih =>
      have ha := h a (by simp)
      have hr : ∀ l ∈ rest, _ParseCompleteResponse l = Except.ok none :=
        fun l m => h l (by simp [m])
      simp [findFirstMatch, ha, ih hr]

/-- The first decodable line wins; everything after it is never parsed. -/
theorem findFirstMatch_first (pre : List String) :
    ∀ (m : String) (rest : List String) (r : MatchRecord),
      (∀ l ∈ pre, _ParseCompleteResponse l = Except.ok none) →
      _ParseCompleteResponse m = Except.ok (some r) →
      findFirstMatch (pre ++ m :: rest) = Except.ok (some r) := by
  induction pre with
  | nil => intro m rest r _ hm; simp [findFirstMatch, hm]
  | cons a prest ih =>
      intro m rest r h hm
      have ha := h a (by simp)
      have hr : ∀ l ∈ prest, _ParseCompleteResponse l = Except.ok none :=
        fun l mm => h l (by simp [mm])
      simp [findFirstMatch, ha, ih m rest r hr hm]

/-! ### Claim theorems -/

/-- C1 counterexample: with the helper dead, `ComputeCandidatesInner` does
    fail with the server-not-running error and writes nothing to stdin,
    but the scratch file HAS been created on disk by then (and is left
    there), contradicting the claim that no scratch file is created. -/
theorem C1_counterexample_scratch_created_when_dead :
    ComputeCandidatesInner ⟨("/a.rs"), ("let x = 1;"), 1, 1, 1⟩ ⟨false, []⟩
        ("/tmp/scratch1") =
      ⟨Outcome.raised PyErr.serverNotRunning, true, true, []⟩ := rfl

/-- C1 (amended): if the helper process is not alive when Complete is
    called (and the filepath is non-empty), the call raises the
    server-not-running error and nothing is written to the helper's stdin;
    however the scratch file is created before the liveness check and is
    left on disk. -/
theorem C1_dead_server_raises_before_stdin_write
    (ctx : RequestContext) (st : ServerState) (p : String)
    (hf : ctx.filepath ≠ ("")) (hd : st.alive = false) :
    ComputeCandidatesInner ctx st p =
      ⟨Outcome.raised PyErr.serverNotRunning, true, true, []⟩ := by
  simp [ComputeCandidatesInner, _SendRequest, hf, hd]

/-- Witness for C1 at a concrete dead-server call. -/
theorem C1_dead_server_raises_before_stdin_write_witness :
    ComputeCandidatesInner ⟨("/w.rs"), ("fn f()"), 2, 1, 1⟩ ⟨false, []⟩
        ("/tmp/w1") =
      ⟨Outcome.raised PyErr.serverNotRunning, true, true, []⟩ :=
  C1_dead_server_raises_before_stdin_write ⟨("/w.rs"), ("fn f()"), 2, 1, 1⟩
    ⟨false, []⟩ ("/tmp/w1") (by decide) rfl

/-- C2 counterexample: a line with the `MATCH ` prefix but fewer than six
    comma-separated fields makes `_ParseCompleteResponse` raise an
    `IndexError` (at `parts[1]`), so the decoder is not total. -/
theorem C2_counterexample_short_match_line_raises :
    _ParseCompleteResponse ("MATCH a") = Except.error PyErr.indexError := rfl

/-- C2 (amended): `_ParseCompleteResponse` never raises on a line that
    does not start with the `MATCH ` prefix - every such line decodes to
    absent; but a prefixed line with fewer than six fields raises
    `IndexError` and one with a non-numeric line/column field raises
    `ValueError`. -/
theorem C2_decode_total_only_off_prefix :
    (∀ line : String, dropPrefixMATCH line.data = none →
        _ParseCompleteResponse line = Except.ok none) ∧
      _ParseCompleteResponse ("MATCH a,1,0,/f,fn") = Except.error PyErr.indexError ∧
      _ParseCompleteResponse ("MATCH a,x,0,/f,fn,s") = Except.error PyErr.valueError := by
  refine ⟨?_, rfl, rfl⟩
  intro line h
  simp [_ParseCompleteResponse, h]

/-- Witness for C2 on a helper chatter line without the prefix. -/
theorem C2_decode_total_only_off_prefix_witness :
    _ParseCompleteResponse ("racer chatter") = Except.ok none :=
  C2_decode_total_only_off_prefix.1 ("racer chatter") rfl

/-- C3: when the helper's stdout reaches end-of-stream before a terminator
    line, the read loop of `_ReadResponse` never exits: `readline()` keeps
    returning the empty string, which never equals `"END"`, so the call
    diverges (modelled by `none` / `Outcome.hangs`) instead of surfacing a
    liveness error - the code bug the claim describes. -/
theorem C3_eof_without_terminator_diverges :
    _ReadResponse [("MATCH a,1,0,/f,fn,foo()")] = none ∧
      (ComputeCandidatesInner ⟨("/main.rs"), ("fn main()"), 1, 1, 1⟩
          ⟨true, [("MATCH a,1,0,/f,fn,foo()")]⟩ ("/tmp/scratch3")).result =
        Outcome.hangs ∧
      (_GoToDefinition ⟨("/main.rs"), ("fn main()"), 1, 1, 1⟩
          ⟨true, [("MATCH a,1,0,/f,fn,foo()")]⟩).result = Outcome.hangs :=
  ⟨rfl, rfl, rfl⟩

/-- C4: when `_SendRequest` raises (dead helper), the `os.unlink` that
    sits after `_ReadResponse` is never reached - there is no
    `try/finally` - so the scratch file created at the start of the call
    is still on disk when the exception propagates, contradicting the
    delete-on-every-exit-path claim. -/
theorem C4_scratch_file_leaked_on_send_failure :
    (ComputeCandidatesInner ⟨("/lib.rs"), ("mod m;"), 2, 3, 4⟩ ⟨false, []⟩
        ("/tmp/scratch4")).scratchCreated = true ∧
      (ComputeCandidatesInner ⟨("/lib.rs"), ("mod m;"), 2, 3, 4⟩ ⟨false, []⟩
          ("/tmp/scratch4")).scratchOnDisk = true ∧
      (ComputeCandidatesInner ⟨("/lib.rs"), ("mod m;"), 2, 3, 4⟩ ⟨false, []⟩
          ("/tmp/scratch4")).result = Outcome.raised PyErr.serverNotRunning :=
  ⟨rfl, rfl, rfl⟩

/-- C5 counterexample: decoding `MATCH a,1,0,/f,fn,foo()` stores column 1,
    not the 0 written in the line - the 0-based→1-based increment happens
    at parse time, not on output. -/
theorem C5_counterexample_column_incremented_at_parse :
    _ParseCompleteResponse ("MATCH a,1,0,/f,fn,foo()") =
        Except.ok (some ⟨("a"), 1, 1, ("/f"), ("fn"), ("foo()")⟩) ∧
      (1 : Int) ≠ 0 := ⟨rfl, by decide⟩

/-- C5 (amended): the increment to 1-based happens at parse time - for
    every valid match line the stored column equals the written integer
    PLUS ONE - and `_ConvertGoToData` then reports the stored value
    unchanged. -/
theorem C5_column_stored_incremented
    (name ls cs path kind snippet : String) (l c : Int)
    (hn : ',' ∉ name.data) (hl : ',' ∉ ls.data) (hc : ',' ∉ cs.data)
    (hp : ',' ∉ path.data) (hk : ',' ∉ kind.data)
    (il : pyInt? ls = some l) (ic : pyInt? cs = some c) :
    _ParseCompleteResponse (("MATCH ") ++ name ++ (",") ++ ls ++ (",") ++ cs
        ++ (",") ++ path ++ (",") ++ kind ++ (",") ++ snippet) =
      Except.ok (some ⟨name, l, c + 1, path, kind, snippet⟩) ∧
    ∀ r : MatchRecord, (_ConvertGoToData r).column_num = r.column_num :=
  ⟨decode_encoded_match_line name ls cs path kind snippet l c hn hl hc hp hk il ic,
    fun _ => rfl⟩

/-- Witness for C5 at the concrete line with written column 0. -/
theorem C5_column_stored_incremented_witness :
    _ParseCompleteResponse (("MATCH ") ++ ("a") ++ (",") ++ ("1") ++ (",") ++ ("0")
        ++ (",") ++ ("/f") ++ (",") ++ ("fn") ++ (",") ++ ("foo()")) =
      Except.ok (some ⟨("a"), 1, 0 + 1, ("/f"), ("fn"), ("foo()")⟩) :=
  (C5_column_stored_incremented ("a") ("1") ("0") ("/f") ("fn") ("foo()") 1 0
    (by decide) (by decide) (by decide) (by decide) (by decide)
    (by decide) (by decide)).1

/-- C6: on the batch `["MATCH a,1,0,/f,fn,foo()", "END"]`, Complete
    returns exactly one item with insertion text `a`, kind `fn` and detail
    `foo()` (and deletes the scratch file), and GoToDefinition on the same
    batch returns line 1, column 1 (the written 0 plus one), path `/f`. -/
theorem C6_single_match_batch_end_to_end :
    ComputeCandidatesInner ⟨("/f.rs"), ("fn main()"), 1, 1, 1⟩
        ⟨true, [("MATCH a,1,0,/f,fn,foo()"), ("END")]⟩ ("/tmp/s6") =
      ⟨Outcome.ok (some [⟨("a"), ("a"), ("fn"), ("foo()")⟩]), true, false,
        [("complete 1 1 /f.rs /tmp/s6\n")]⟩ ∧
      (_GoToDefinition ⟨("/f.rs"), ("fn main()"), 1, 1, 1⟩
          ⟨true, [("MATCH a,1,0,/f,fn,foo()"), ("END")]⟩).result =
        Outcome.ok ⟨1, 1, ("/f")⟩ := ⟨rfl, rfl⟩

/-- C8: a bounded split preserves a comma-carrying snippet as one field:
    decoding an encoded match line whose first five fields are comma-free
    and whose snippet contains commas yields a record whose snippet is
    exactly the encoded snippet string, not re-split. -/
theorem C8_snippet_with_commas_preserved
    (name ls cs path kind snippet : String) (l c : Int)
    (hn : ',' ∉ name.data) (hl : ',' ∉ ls.data) (hc : ',' ∉ cs.data)
    (hp : ',' ∉ path.data) (hk : ',' ∉ kind.data)
    (il : pyInt? ls = some l) (ic : pyInt? cs = some c)
    (_hsnip : ',' ∈ snippet.data) :
    _ParseCompleteResponse (("MATCH ") ++ name ++ (",") ++ ls ++ (",") ++ cs
        ++ (",") ++ path ++ (",") ++ kind ++ (",") ++ snippet) =
      Except.ok (some ⟨name, l, c + 1, path, kind, snippet⟩) ∧
    (⟨name, l, c + 1, path, kind, snippet⟩ : MatchRecord).snippet = snippet :=
  ⟨decode_encoded_match_line name ls cs path kind snippet l c hn hl hc hp hk il ic,
    rfl⟩

/-- Witness for C8 at the snippet `foo(a, b)`. -/
theorem C8_snippet_with_commas_preserved_witness :
    _ParseCompleteResponse (("MATCH ") ++ ("a") ++ (",") ++ ("1") ++ (",") ++ ("0")
        ++ (",") ++ ("/f") ++ (",") ++ ("fn") ++ (",") ++ ("foo(a, b)")) =
      Except.ok (some ⟨("a"), 1, 0 + 1, ("/f"), ("fn"), ("foo(a, b)")⟩) :=
  (C8_snippet_with_commas_preserved ("a") ("1") ("0") ("/f") ("fn") ("foo(a, b)") 1 0
    (by decide) (by decide) (by decide) (by decide) (by decide)
    (by decide) (by decide) (by decide)).1

/-- C7 counterexample: the batch `["MATCH x", "END"]` contains zero
    decodable MATCH lines, yet GoToDefinition raises `IndexError` from the
    short split - not the definition-not-found error - and Complete raises
    instead of returning an empty sequence. -/
theorem C7_counterexample_undecodable_match_line :
    (_GoToDefinition ⟨("/g.rs"), ("y"), 1, 1, 1⟩
        ⟨true, [("MATCH x"), ("END")]⟩).result = Outcome.raised PyErr.indexError ∧
      (ComputeCandidatesInner ⟨("/g.rs"), ("y"), 1, 1, 1⟩
          ⟨true, [("MATCH x"), ("END")]⟩ ("/tmp/s7x")).result =
        Outcome.raised PyErr.indexError := ⟨rfl, rfl⟩

/-- C7 (amended): for every response batch whose lines all decode to
    absent (in particular, none carries the `MATCH ` prefix),
    GoToDefinition raises the recoverable definition-not-found error while
    Complete returns the empty sequence; and when a prefix of
    absent-decoding lines is followed by a decodable match line,
    GoToDefinition returns the location adapted from that first match,
    ignoring all later lines. -/
theorem C7_absent_batch_and_first_match :
    (∀ (ctx : RequestContext) (p : String) (lines : List String),
      ctx.filepath ≠ ("") →
      (∀ l ∈ lines, pyStrip l ≠ ("END") ∧
        _ParseCompleteResponse (pyStrip l) = Except.ok none) →
      (_GoToDefinition ctx ⟨true, lines ++ [("END")]⟩).result =
          Outcome.raised PyErr.noDefinition ∧
        (ComputeCandidatesInner ctx ⟨true, lines ++ [("END")]⟩ p).result =
          Outcome.ok (some [])) ∧
    (∀ (ctx : RequestContext) (pre : List String) (m : String)
        (rest : List String) (r : MatchRecord),
      (∀ l ∈ pre, pyStrip l ≠ ("END") ∧
        _ParseCompleteResponse (pyStrip l) = Except.ok none) →
      pyStrip m ≠ ("END") →
      _ParseCompleteResponse (pyStrip m) = Except.ok (some r) →
      (∀ l ∈ rest, pyStrip l ≠ ("END")) →
      (_GoToDefinition ctx ⟨true, (pre ++ m :: rest) ++ [("END")]⟩).result =
        Outcome.ok (_ConvertGoToData r)) := by
  constructor
  · intro ctx p lines hf hlines
    have hread : _ReadResponse (lines ++ [("END")]) = some (lines.map pyStrip) :=
      readResponse_until_end lines ("END") [] (fun x hx => (hlines x hx).1) rfl
    have hnone : ∀ x ∈ lines.map pyStrip,
        _ParseCompleteResponse x = Except.ok none := by
      intro x hx
      rcases List.mem_map.mp hx with ⟨l, hl, he⟩
      exact he ▸ (hlines l hl).2
    constructor
    · simp [_GoToDefinition, _SendRequest, hread, findFirstMatch_all_none _ hnone]
    · simp [ComputeCandidatesInner, _SendRequest, hf, hread,
        parseLoopComplete_all_none _ hnone]
  · intro ctx pre m rest r hpre hm1 hm2 hrest
    have hall : ∀ x ∈ pre ++ m :: rest, pyStrip x ≠ ("END") := by
      intro x hx
      rcases List.mem_append.mp hx with h1 | h2
      · exact (hpre x h1).1
      · rcases List.mem_cons.mp h2 with he | h3
        · exact he ▸ hm1
        · exact hrest x h3
    have hread : _ReadResponse (pre ++ m :: (rest ++ [("END")])) =
        some (pre.map pyStrip ++ pyStrip m :: rest.map pyStrip) := by
      have h0 := readResponse_until_end (pre ++ m :: rest) ("END") [] hall rfl
      simpa using h0
    have hfind : findFirstMatch (pre.map pyStrip ++ pyStrip m :: rest.map pyStrip) =
        Except.ok (some r) := by
      refine findFirstMatch_first (pre.map pyStrip) (pyStrip m)
        (rest.map pyStrip) r ?_ hm2
      intro x hx
      rcases List.mem_map.mp hx with ⟨l, hl, he⟩
      exact he ▸ (hpre l hl).2
    simp [_GoToDefinition, _SendRequest, hread, hfind]

/-- Witness for C7: an all-chatter batch raises the definition-not-found
    error and completes to the empty sequence, and a batch with two match
    lines returns the location of the first one only. -/
theorem C7_absent_batch_and_first_match_witness :
    ((_GoToDefinition ⟨("/w7.rs"), ("z"), 1, 1, 1⟩
        ⟨true, [("racer noise")] ++ [("END")]⟩).result =
          Outcome.raised PyErr.noDefinition ∧
      (ComputeCandidatesInner ⟨("/w7.rs"), ("z"), 1, 1, 1⟩
          ⟨true, [("racer noise")] ++ [("END")]⟩ ("/tmp/w7")).result =
        Outcome.ok (some [])) ∧
      (_GoToDefinition ⟨("/w7.rs"), ("z"), 1, 1, 1⟩
          ⟨true, ([("racer noise")] ++ ("MATCH a,1,0,/f,fn,s") ::
            [("MATCH b,2,3,/g,fn,t")]) ++ [("END")]⟩).result =
        Outcome.ok ⟨1, 1, ("/f")⟩ := by
  constructor
  · exact C7_absent_batch_and_first_match.1 ⟨("/w7.rs"), ("z"), 1, 1, 1⟩
      ("/tmp/w7") [("racer noise")] (by decide) (by decide)
  · exact C7_absent_batch_and_first_match.2 ⟨("/w7.rs"), ("z"), 1, 1, 1⟩
      [("racer noise")] ("MATCH a,1,0,/f,fn,s") [("MATCH b,2,3,/g,fn,t")]
      ⟨("a"), 1, 1, ("/f"), ("fn"), ("s")⟩ (by decide) (by decide) (by decide)
      (by decide)

/-- C9: an empty (falsy) filepath makes Complete return `None` at once: no
    scratch file is created, nothing is written to the helper, and the
    helper's liveness is never even consulted. -/
theorem C9_empty_filepath_early_return
    (ctx : RequestContext) (st : ServerState) (p : String)
    (h : ctx.filepath = ("")) :
    ComputeCandidatesInner ctx st p = ⟨Outcome.ok none, false, false, []⟩ := by
  simp [ComputeCandidatesInner, h]

/-- Witness for C9 at a concrete empty-filepath request. -/
theorem C9_empty_filepath_early_return_witness :
    ComputeCandidatesInner ⟨(""), ("unsaved text"), 1, 1, 1⟩
        ⟨true, [("END")]⟩ ("/tmp/w9") = ⟨Outcome.ok none, false, false, []⟩ :=
  C9_empty_filepath_early_return ⟨(""), ("unsaved text"), 1, 1, 1⟩
    ⟨true, [("END")]⟩ ("/tmp/w9") rfl

/-- C10: every response line is stripped before both the terminator check
    and decoding - a line stripping to `END` anywhere in the stream
    terminates the batch with the stripped preceding lines, and
    whitespace-padding a line changes nothing about how the read loop (and
    hence the decoding of its output) proceeds. -/
theorem C10_lines_stripped_before_terminator_and_decode :
    (∀ (pre : List String) (l : String) (post : List String),
        (∀ x ∈ pre, pyStrip x ≠ ("END")) → pyStrip l = ("END") →
        _ReadResponse (pre ++ l :: post) = some (pre.map pyStrip)) ∧
      (∀ (ws₁ ws₂ core : String) (rest : List String),
        (∀ c ∈ ws₁.data, isPySpace c = true) →
        (∀ c ∈ ws₂.data, isPySpace c = true) →
        _ReadResponse ((ws₁ ++ core ++ ws₂) :: rest) =
          _ReadResponse (core :: rest)) := by
  constructor
  · intro pre l post h hl
    exact readResponse_until_end pre l post h hl
  · intro ws₁ ws₂ core rest h₁ h₂
    simp only [_ReadResponse]
    rw [pyStrip_pad ws₁ ws₂ core h₁ h₂]

/-- Witness for C10: a padded terminator ends the batch, and a
    whitespace-padded match line reads the same as its stripped form. -/
theorem C10_lines_stripped_before_terminator_and_decode_witness :
    _ReadResponse ([("racer noise")] ++ ("  END \n") :: [("junk")]) =
        some [("racer noise")] ∧
      _ReadResponse (((" \t ") ++ ("MATCH a,1,0,/f,fn,s") ++ (" \n")) :: [("END")]) =
        _ReadResponse (("MATCH a,1,0,/f,fn,s") :: [("END")]) := by
  constructor
  · exact C10_lines_stripped_before_terminator_and_decode.1
      [("racer noise")] ("  END \n") [("junk")] (by decide) (by decide)
  · exact C10_lines_stripped_before_terminator_and_decode.2
      (" \t ") (" \n") ("MATCH a,1,0,/f,fn,s") [("END")] (by decide) (by decide)
